import Mathlib

/-!
Shallow embedding of the GAIA evaluation harness:
the pattern-matching agent in `azrock/agent.py` (`SimpleLLMAgent`)
and the fetch/run/submit orchestration in `app.py`
(`fetch_questions`, `run_and_submit_all`).

Strings are modelled with executable primitives mirroring the Python
operations used by the code: substring membership (`needle in hay`),
ASCII lowercasing (`str.lower()`), and character slicing (`text[:500]`).
Network calls and exceptions are modelled by explicit parameters of
`Except` type; the orchestration is a pure function of those outcomes.
-/

/-- Model of checking that the character list `p` starts the character
list `h` (the prefix test underlying Python substring search). -/
def leadsWith : List Char → List Char → Bool
  | [], _ => true
  | _ :: _, [] => false
  | a :: as, b :: bs => a == b && leadsWith as bs

/-- Model of Python `needle in hay` on character lists: some tail of `h`
starts with `n`. -/
def hasSeq (n : List Char) : List Char → Bool
  | [] => n.isEmpty
  | b :: bs => leadsWith n (b :: bs) || hasSeq n bs

/-- Model of Python string membership `needle in hay`. -/
def strIn (needle hay : String) : Bool :=
  hasSeq needle.data hay.data

/-- String version of the `leadsWith` test. -/
def strStarts (p s : String) : Bool :=
  leadsWith p.data s.data

/-- Model of Python slicing `s[:n]` (first `n` characters). -/
def pyTake (s : String) (n : Nat) : String :=
  ⟨s.data.take n⟩

/-- Model of Python `str.lower()` on one character (ASCII range, as the
agent only compares against ASCII literals). -/
def lowerChar (c : Char) : Char :=
  if 65 ≤ c.toNat ∧ c.toNat ≤ 90 then Char.ofNat (c.toNat + 32) else c

/-- Model of Python `str.lower()`. -/
def lowerStr (s : String) : String :=
  ⟨s.data.map lowerChar⟩

theorem leadsWith_append_self (p t : List Char) : leadsWith p (p ++ t) = true := by
  induction p with
  | nil => rfl
  | cons a as ih => simp [leadsWith, ih]

theorem leadsWith_iff_exists {p h : List Char} :
    leadsWith p h = true ↔ ∃ t, p ++ t = h := by
  induction p generalizing h with
  | nil => simp [leadsWith]
  | cons a as ih =>
    cases h with
    | nil => simp [leadsWith]
    | cons b bs =>
      simp only [leadsWith, Bool.and_eq_true, beq_iff_eq, ih]
      constructor
      · rintro ⟨rfl, t, rfl⟩
        exact ⟨t, rfl⟩
      · rintro ⟨t, heq⟩
        cases heq
        exact ⟨rfl, t, rfl⟩

theorem leadsWith_eq_false_of_take_ne {p h : List Char} (n : Nat)
    (hn : n ≤ p.length) (hne : p.take n ≠ h.take n) : leadsWith p h = false := by
  cases hlw : leadsWith p h with
  | false => rfl
  | true =>
    obtain ⟨t, rfl⟩ := leadsWith_iff_exists.mp hlw
    exact absurd (List.take_append_of_le_length hn).symm hne

theorem hasSeq_middle (a n b : List Char) : hasSeq n (a ++ (n ++ b)) = true := by
  induction a with
  | nil =>
    cases n with
    | nil =>
      cases b with
      | nil => rfl
      | cons c cs => simp [hasSeq, leadsWith]
    | cons c cs =>
      simp only [List.nil_append, hasSeq, Bool.or_eq_true]
      exact Or.inl (leadsWith_append_self (c :: cs) b)
  | cons c cs ih => simp [hasSeq, ih]

theorem strIn_middle (pre mid suf : String) :
    strIn mid (pre ++ mid ++ suf) = true := by
  simp only [strIn, String.data_append, List.append_assoc]
  exact hasSeq_middle pre.data mid.data suf.data

theorem toNat_lowerChar_ofNat {n : Nat} (h : n.isValidChar) :
    (Char.ofNat n).toNat = n := by
  rw [Char.ofNat, dif_pos h]
  rfl

theorem lowerChar_idem (c : Char) : lowerChar (lowerChar c) = lowerChar c := by
  unfold lowerChar
  by_cases h : 65 ≤ c.toNat ∧ c.toNat ≤ 90
  · rw [if_pos h]
    have hv : (c.toNat + 32).isValidChar := Or.inl (by omega)
    rw [if_neg]
    rw [toNat_lowerChar_ofNat hv]
    omega
  · rw [if_neg h, if_neg h]

theorem lowerStr_idem (s : String) : lowerStr (lowerStr s) = lowerStr s := by
  simp only [lowerStr, List.map_map]
  exact congrArg String.mk
    (List.map_congr_left fun c _ => by simp [Function.comp_apply, lowerChar_idem])

namespace SimpleLLMAgent

/-- The twenty substring checks of `SimpleLLMAgent._gaia_tools`
(azrock/agent.py), applied to the already-lowercased text `p`,
in source order. -/
def toolChecks (p : String) : Option String :=
  if strIn "mercedes sosa" p && strIn "studio albums" p && strIn "2000 and 2009" p then
    some "3"
  else if strIn "l1vxcyzayym" p && strIn "bird species" p then
    some "3"
  else if strIn ".rewsna eht sa \"tfel\" drow eht fo etisoppo eht etirw" p then
    some "Right"
  else if strIn "review the chess position provided in the image" p then
    some "Rd5"
  else if strIn "featured article on english wikipedia about a dinosaur" p then
    some "FunkMonk"
  else if strIn "given this table defining * on the set s = \x7ba, b, c, d, e\x7d" p then
    some "b,e"
  else if strIn "teal\x27c" p && strIn "isn\x27t that hot" p then
    some "Extremely"
  else if strIn "equine veterinarian" p && strIn "1.e exercises" p then
    some "Louvrier"
  else if strIn "i\x27m making a grocery list for my mom" p && strIn "milk, eggs, flour" p then
    some "broccoli, celery, corn, green beans, lettuce, sweet potatoes, zucchini"
  else if strIn "strawberry pie.mp3" p then
    some ("cornstarch, freshly squeezed lemon juice, granulated sugar, " ++
      "pure vanilla extract, ripe strawberries")
  else if strIn "actor who played ray in the polish-language version of everybody loves raymond" p then
    some "Wojciech"
  else if strIn "final numeric output from the attached python code" p then
    some "0"
  else if strIn "yankee with the most walks in the 1977 regular season" p then
    some "519"
  else if strIn "homework.mp3" p && strIn "page numbers" p then
    some "132, 133, 134, 197, 245"
  else if strIn "carolyn collins petersen" p && strIn "universe today" p && strIn "arendt" p then
    some "80GSFC21M0002"
  else if strIn "vietnamese specimens described by kuznetzov in nedoshivina\x27s 2010 paper" p then
    some "Saint Petersburg"
  else if strIn "1928 summer olympics" p && strIn "least number of athletes" p then
    some "CUB"
  else if strIn "pitchers with the number before and after taishō tamai\x27s number" p then
    some "Yoshida, Uehara"
  else if strIn "attached excel file contains the sales of menu items for a local fast-food chain" p then
    some "89706.00"
  else if strIn "only malko competition recipient from the 20th century" p then
    some "Claus"
  else
    none

/-- Embedding of `SimpleLLMAgent._gaia_tools`: lowercase the prompt,
then run the substring checks in source order. -/
def gaia_tools (prompt : String) : Option String :=
  toolChecks (lowerStr prompt)

/-- Embedding of `SimpleLLMAgent.run`. The fallback completer is
modelled by the flag `hasCompleter` (set iff the HF token, and hence
`self.api_url`, is configured) and the function `completer`, whose
`Except.error` outcome models `_call_hf` raising an exception. -/
def run (hasCompleter : Bool) (completer : String → Except String String)
    (prompt : String) (metadata : List (String × String)) : String :=
  match gaia_tools prompt with
  | some toolAnswer => toolAnswer
  | none =>
    if hasCompleter then
      match completer prompt with
      | Except.ok text => text
      | Except.error _ => "I don\x27t know"
    else
      "I don\x27t know"

end SimpleLLMAgent

/-- An answer rule of the spec view of the tool table: a predicate on the
normalized text together with a canned answer. -/
structure AnswerRule where
  pred : String → Bool
  answer : String

/-- Spec view of the tool table: the same twenty rules as `toolChecks`,
as an ordered first-match list. -/
def gaiaRules : List AnswerRule :=
  [⟨fun p => strIn "mercedes sosa" p && strIn "studio albums" p && strIn "2000 and 2009" p,
    "3"⟩,
   ⟨fun p => strIn "l1vxcyzayym" p && strIn "bird species" p, "3"⟩,
   ⟨fun p => strIn ".rewsna eht sa \"tfel\" drow eht fo etisoppo eht etirw" p, "Right"⟩,
   ⟨fun p => strIn "review the chess position provided in the image" p, "Rd5"⟩,
   ⟨fun p => strIn "featured article on english wikipedia about a dinosaur" p, "FunkMonk"⟩,
   ⟨fun p => strIn "given this table defining * on the set s = \x7ba, b, c, d, e\x7d" p, "b,e"⟩,
   ⟨fun p => strIn "teal\x27c" p && strIn "isn\x27t that hot" p, "Extremely"⟩,
   ⟨fun p => strIn "equine veterinarian" p && strIn "1.e exercises" p, "Louvrier"⟩,
   ⟨fun p => strIn "i\x27m making a grocery list for my mom" p && strIn "milk, eggs, flour" p,
    "broccoli, celery, corn, green beans, lettuce, sweet potatoes, zucchini"⟩,
   ⟨fun p => strIn "strawberry pie.mp3" p,
    "cornstarch, freshly squeezed lemon juice, granulated sugar, " ++
      "pure vanilla extract, ripe strawberries"⟩,
   ⟨fun p => strIn "actor who played ray in the polish-language version of everybody loves raymond" p,
    "Wojciech"⟩,
   ⟨fun p => strIn "final numeric output from the attached python code" p, "0"⟩,
   ⟨fun p => strIn "yankee with the most walks in the 1977 regular season" p, "519"⟩,
   ⟨fun p => strIn "homework.mp3" p && strIn "page numbers" p, "132, 133, 134, 197, 245"⟩,
   ⟨fun p => strIn "carolyn collins petersen" p && strIn "universe today" p && strIn "arendt" p,
    "80GSFC21M0002"⟩,
   ⟨fun p => strIn "vietnamese specimens described by kuznetzov in nedoshivina\x27s 2010 paper" p,
    "Saint Petersburg"⟩,
   ⟨fun p => strIn "1928 summer olympics" p && strIn "least number of athletes" p, "CUB"⟩,
   ⟨fun p => strIn "pitchers with the number before and after taishō tamai\x27s number" p,
    "Yoshida, Uehara"⟩,
   ⟨fun p => strIn "attached excel file contains the sales of menu items for a local fast-food chain" p,
    "89706.00"⟩,
   ⟨fun p => strIn "only malko competition recipient from the 20th century" p, "Claus"⟩]

/-- First-match evaluation of an ordered rule list on normalized text. -/
def firstMatch : List AnswerRule → String → Option String
  | [], _ => none
  | r :: rs, p => if r.pred p then some r.answer else firstMatch rs p

theorem toolChecks_eq_firstMatch (p : String) :
    SimpleLLMAgent.toolChecks p = firstMatch gaiaRules p := rfl

theorem firstMatch_eq_of_first (rs : List AnswerRule) (p : String) :
    ∀ (i : Nat) (hi : i < rs.length),
      (rs.get ⟨i, hi⟩).pred p = true →
      (∀ k (hk : k < i), (rs.get ⟨k, Nat.lt_trans hk hi⟩).pred p = false) →
      firstMatch rs p = some (rs.get ⟨i, hi⟩).answer := by
  induction rs with
  | nil => intro i hi; exact absurd hi (Nat.not_lt_zero i)
  | cons r rs ih =>
    intro i hi hmatch hfirst
    cases i with
    | zero => simp only [List.get] at hmatch ⊢; simp [firstMatch, hmatch]
    | succ i =>
      have hr : r.pred p = false := hfirst 0 (Nat.succ_pos i)
      simp only [List.get] at hmatch ⊢
      simp only [firstMatch, hr, Bool.false_eq_true, if_false]
      exact ih i (Nat.lt_of_succ_lt_succ hi) hmatch
        (fun k hk => hfirst (k + 1) (Nat.succ_lt_succ hk))

theorem firstMatch_eq_none (rs : List AnswerRule) (p : String)
    (h : ∀ r ∈ rs, r.pred p = false) : firstMatch rs p = none := by
  induction rs with
  | nil => rfl
  | cons r rs ih =>
    simp only [firstMatch, h r (List.mem_cons_self r rs), Bool.false_eq_true, if_false]
    exact ih fun r' hr' => h r' (List.mem_cons_of_mem r hr')

/-- One fetched item, as consumed by the loop of `run_and_submit_all`
(app.py): `item.get("task_id")`, `item.get("question")` (both possibly
absent), and the remaining fields as metadata. -/
structure QItem where
  task_id : Option String
  question : Option String
  metadata : List (String × String)
deriving DecidableEq

/-- One entry of `answers_payload`. -/
structure AnswerEntry where
  task_id : String
  submitted_answer : String
deriving DecidableEq

/-- One entry of `results_log`. -/
structure LogEntry where
  taskID : String
  questionText : String
  submittedAnswer : String
deriving DecidableEq

/-- Validity test applied by the loop: `not task_id or question_text is
None` skips the item, so an item is dispatched iff its task id is
present and non-empty and its question is present. -/
def isValidItem (item : QItem) : Bool :=
  match item.task_id, item.question with
  | some tid, some _ => !(tid == "")
  | _, _ => false

/-- The per-task loop of `run_and_submit_all` (app.py, step 3):
malformed items are skipped; for each remaining item the agent is
called; an `Except.error` outcome (an exception from `agent.answer`)
adds an `AGENT ERROR:` entry to the result log only, while a normal
answer is added to both the submission payload and the result log. -/
def processTasks (agent : String → List (String × String) → Except String String) :
    List QItem → List AnswerEntry × List LogEntry
  | [] => ([], [])
  | item :: rest =>
    let tailRes := processTasks agent rest
    match item.task_id, item.question with
    | some tid, some q =>
      if tid == "" then tailRes
      else
        match agent q item.metadata with
        | Except.ok a => (⟨tid, a⟩ :: tailRes.1, ⟨tid, q, a⟩ :: tailRes.2)
        | Except.error e => (tailRes.1, ⟨tid, q, "AGENT ERROR: " ++ e⟩ :: tailRes.2)
    | _, _ => tailRes

/-- True of a valid item on which the agent call raises. -/
def agentErrs (agent : String → List (String × String) → Except String String)
    (item : QItem) : Bool :=
  match item.task_id, item.question with
  | some tid, some q =>
    !(tid == "") &&
      (match agent q item.metadata with
       | Except.ok _ => false
       | Except.error _ => true)
  | _, _ => false

/-- The answer string recorded in the result log for one dispatched
item, as a function of the agent call outcome. -/
def answerOf : Except String String → String
  | Except.ok a => a
  | Except.error e => "AGENT ERROR: " ++ e

/-- The decoded body of the questions endpoint response: either a JSON
list of items or something else. -/
inductive FetchBody where
  | list (items : List QItem)
  | notList
deriving DecidableEq

/-- The check `isinstance(data, list) and len(data) != 0` that
`fetch_questions` requires of the decoded body. -/
def isNonEmptyList : FetchBody → Bool
  | FetchBody.list items => !(items.length == 0)
  | FetchBody.notList => false

/-- The `ValueError` message raised by `fetch_questions`. -/
def fetchFailMsg : String :=
  "Questions endpoint returned empty or invalid payload."

/-- Embedding of `fetch_questions` (app.py) on an already-decoded body:
raises (`Except.error`) unless the body is a non-empty list. -/
def fetch_questions : FetchBody → Except String (List QItem)
  | FetchBody.list items =>
    if items.length == 0 then Except.error fetchFailMsg else Except.ok items
  | FetchBody.notList => Except.error fetchFailMsg

/-- The decoded JSON of the submission response; each field defaults in
the status message when absent. -/
structure SubmitResponse where
  username : Option String
  score : Option String
  correct_count : Option String
  total_attempted : Option String
  message : Option String

/-- Outcome of `e.response.json()` inside the HTTPError handler: either
a parsed object (whose `detail` field may be absent) or a parse failure. -/
inductive JsonDetail where
  | parsed (detail : Option String)
  | unparseable

/-- Outcome of the `submit_answers` call, as classified by the
`try/except` chain of `run_and_submit_all` (app.py, step 4). -/
inductive SubmitResult where
  | success (r : SubmitResponse)
  | httpError (code : Nat) (body : JsonDetail) (text : String)
  | timeout
  | requestError (msg : String)
  | unexpected (msg : String)

/-- The status string built by `run_and_submit_all` from the submission
outcome, with the f-string nesting flattened into one concatenation. -/
def submitStatus (username : String) : SubmitResult → String
  | SubmitResult.success r =>
    "Submission Successful!\nUser: " ++ r.username.getD username ++
      "\nOverall Score: " ++ r.score.getD "N/A" ++ "% (" ++
      r.correct_count.getD "?" ++ "/" ++ r.total_attempted.getD "?" ++
      " correct)\nMessage: " ++ r.message.getD "No message received."
  | SubmitResult.httpError code body text =>
    "Submission Failed: Server responded with status " ++ toString code ++ "." ++
      (match body with
       | JsonDetail.parsed d => " Detail: " ++ d.getD text
       | JsonDetail.unparseable => " Response: " ++ pyTake text 500)
  | SubmitResult.timeout => "Submission Failed: The request timed out."
  | SubmitResult.requestError m => "Submission Failed: Network error - " ++ m
  | SubmitResult.unexpected m => "An unexpected error occurred during submission: " ++ m

/-- Embedding of `run_and_submit_all` (app.py). The remote interactions
are explicit parameters: `fetchResult` is the outcome of the
`fetch_questions` call, `agent` the behavior of `agent.answer` per task,
and `submitResult` the outcome of the `submit_answers` call (consulted
only if a submission is attempted). Agent construction (`GaiaAgent()`)
is pure in the source and cannot fail, so it has no parameter here. The
second component models the displayed DataFrame, `none` when the run
aborts before producing a result log. -/
def run_and_submit_all (profile : Option String)
    (fetchResult : Except String (List QItem))
    (agent : String → List (String × String) → Except String String)
    (submitResult : SubmitResult) : String × Option (List LogEntry) :=
  match profile with
  | none => ("Please log in to Hugging Face with the button above.", none)
  | some username =>
    match fetchResult with
    | Except.error e => ("Error while fetching questions: " ++ e, none)
    | Except.ok questions_data =>
      let pr := processTasks agent questions_data
      if pr.1.isEmpty then
        ("Agent did not produce any answers to submit.", some pr.2)
      else
        (submitStatus username submitResult, some pr.2)

/-- The four-way classification of a submission-failure status string by
its fixed leading text; `4` means none of the four shapes. -/
def classifyStatus (s : String) : Nat :=
  if strStarts "Submission Failed: Server responded with status " s then 0
  else if s == "Submission Failed: The request timed out." then 1
  else if strStarts "Submission Failed: Network error - " s then 2
  else if strStarts "An unexpected error occurred during submission: " s then 3
  else 4

theorem processTasks_cons_invalid
    (a : String → List (String × String) → Except String String)
    (item : QItem) (rest : List QItem) (h : isValidItem item = false) :
    processTasks a (item :: rest) = processTasks a rest := by
  rcases item with ⟨tid?, q?, md⟩
  cases tid? with
  | none => cases q? <;> rfl
  | some tid =>
    cases q? with
    | none => rfl
    | some q =>
      have htid : (tid == "") = true := by
        simpa [isValidItem] using h
      simp [processTasks, htid]

theorem processTasks_log_length
    (a : String → List (String × String) → Except String String) :
    ∀ l : List QItem, (processTasks a l).2.length = (l.filter isValidItem).length := by
  intro l
  induction l with
  | nil => rfl
  | cons item rest ih =>
    rcases item with ⟨tid?, q?, md⟩
    cases tid? with
    | none => cases q? <;> simpa [processTasks, List.filter, isValidItem] using ih
    | some tid =>
      cases q? with
      | none => simpa [processTasks, List.filter, isValidItem] using ih
      | some q =>
        by_cases htid : (tid == "") = true
        · simpa [processTasks, List.filter, isValidItem, htid] using ih
        · rw [Bool.not_eq_true] at htid
          cases hag : a q md <;>
            simp [processTasks, List.filter, isValidItem, htid, hag, ih]

theorem processTasks_length_split
    (a : String → List (String × String) → Except String String) :
    ∀ l : List QItem,
      (processTasks a l).2.length = (processTasks a l).1.length + l.countP (agentErrs a) := by
  intro l
  induction l with
  | nil => rfl
  | cons item rest ih =>
    rcases item with ⟨tid?, q?, md⟩
    cases tid? with
    | none => cases q? <;> simpa [processTasks, List.countP_cons, agentErrs] using ih
    | some tid =>
      cases q? with
      | none => simpa [processTasks, List.countP_cons, agentErrs] using ih
      | some q =>
        by_cases htid : (tid == "") = true
        · simpa [processTasks, List.countP_cons, agentErrs, htid] using ih
        · rw [Bool.not_eq_true] at htid
          cases hag : a q md <;>
            simp [processTasks, List.countP_cons, agentErrs, htid, hag, ih] <;> omega

theorem processTasks_filter
    (a : String → List (String × String) → Except String String) :
    ∀ l : List QItem, processTasks a l = processTasks a (l.filter isValidItem) := by
  intro l
  induction l with
  | nil => rfl
  | cons item rest ih =>
    by_cases hv : isValidItem item = true
    · rcases item with ⟨tid?, q?, md⟩
      rcases tid? with _ | tid <;> rcases q? with _ | q <;> simp [isValidItem] at hv
      simp only [List.filter, isValidItem, hv, Bool.not_eq_eq_eq_not, Bool.not_true]
      have htid : (tid == "") = false := by simpa using hv
      cases hag : a q md <;> simp [processTasks, htid, hag, ih]
    · rw [Bool.not_eq_true] at hv
      rw [processTasks_cons_invalid a item rest hv]
      simp only [List.filter, hv]
      exact ih

theorem processTasks_middle_invalid
    (a : String → List (String × String) → Except String String)
    (pre post : List QItem) (item : QItem) (h : isValidItem item = false) :
    processTasks a (pre ++ item :: post) = processTasks a (pre ++ post) := by
  induction pre with
  | nil => simpa using processTasks_cons_invalid a item post h
  | cons x xs ih =>
    rcases x with ⟨tid?, q?, md⟩
    cases tid? with
    | none => cases q? <;> simpa [processTasks] using ih
    | some tid =>
      cases q? with
      | none => simpa [processTasks] using ih
      | some q =>
        by_cases htid : (tid == "") = true
        · simpa [processTasks, htid] using ih
        · rw [Bool.not_eq_true] at htid
          cases hag : a q md <;> simp [processTasks, htid, hag, ih]

/-- Claim C1: `SimpleLLMAgent.run` always returns a string: if a tool
rule matches it returns the answer of that rule; otherwise with a
configured completer it returns the output of the completer when the
call succeeds and the fixed default string when the call raises;
without a configured completer it returns the fixed default string and
the result does not depend on the completer at all (no fallback call). -/
theorem agent_run_dispatch :
    (∀ (hc : Bool) (c : String → Except String String) (p : String)
       (m : List (String × String)) (a : String),
       SimpleLLMAgent.gaia_tools p = some a → SimpleLLMAgent.run hc c p m = a) ∧
    (∀ (c : String → Except String String) (p : String)
       (m : List (String × String)) (t : String),
       SimpleLLMAgent.gaia_tools p = none → c p = Except.ok t →
       SimpleLLMAgent.run true c p m = t) ∧
    (∀ (c : String → Except String String) (p : String)
       (m : List (String × String)) (e : String),
       SimpleLLMAgent.gaia_tools p = none → c p = Except.error e →
       SimpleLLMAgent.run true c p m = "I don\x27t know") ∧
    (∀ (c : String → Except String String) (p : String)
       (m : List (String × String)),
       SimpleLLMAgent.gaia_tools p = none →
       SimpleLLMAgent.run false c p m = "I don\x27t know") ∧
    (∀ (c₁ c₂ : String → Except String String) (p : String)
       (m : List (String × String)),
       SimpleLLMAgent.run false c₁ p m = SimpleLLMAgent.run false c₂ p m) := by
  refine ⟨?_, ?_, ?_, ?_, ?_⟩
  · intro hc c p m a h
    simp [SimpleLLMAgent.run, h]
  · intro c p m t h hc
    simp [SimpleLLMAgent.run, h, hc]
  · intro c p m e h hc
    simp [SimpleLLMAgent.run, h, hc]
  · intro c p m h
    simp [SimpleLLMAgent.run, h]
  · intro c₁ c₂ p m
    cases h : SimpleLLMAgent.gaia_tools p <;> simp [SimpleLLMAgent.run, h]

/-- Witness for C1: each dispatch branch evaluated at a concrete
question, completer behavior and metadata. -/
theorem agent_run_dispatch_w :
    SimpleLLMAgent.run false (fun _ => Except.ok "x")
      "mercedes sosa studio albums 2000 and 2009" [] = "3" ∧
    SimpleLLMAgent.run true (fun _ => Except.ok "paris") "hi" [] = "paris" ∧
    SimpleLLMAgent.run true (fun _ => Except.error "down") "hi" [] = "I don\x27t know" ∧
    SimpleLLMAgent.run false (fun _ => Except.ok "paris") "hi" [] = "I don\x27t know" :=
  ⟨agent_run_dispatch.1 false (fun _ => Except.ok "x")
      "mercedes sosa studio albums 2000 and 2009" [] "3" (by decide),
   agent_run_dispatch.2.1 (fun _ => Except.ok "paris") "hi" [] "paris" (by decide) rfl,
   agent_run_dispatch.2.2.1 (fun _ => Except.error "down") "hi" [] "down" (by decide) rfl,
   agent_run_dispatch.2.2.2.1 (fun _ => Except.ok "paris") "hi" [] (by decide)⟩

/-- Claim C9: the metadata argument has no influence on `SimpleLLMAgent.run`:
for the same question and completer, any two metadata mappings give the
same result. -/
theorem run_metadata_irrelevant (hc : Bool) (c : String → Except String String)
    (p : String) (m₁ m₂ : List (String × String)) :
    SimpleLLMAgent.run hc c p m₁ = SimpleLLMAgent.run hc c p m₂ := rfl

/-- Claim C8: matching is case-insensitive with no other transformation:
`gaia_tools` on any string equals `gaia_tools` on its lowercased form,
and both case variants of the Mercedes Sosa question return "3". -/
theorem match_case_insensitive :
    (∀ s, SimpleLLMAgent.gaia_tools s = SimpleLLMAgent.gaia_tools (lowerStr s)) ∧
    SimpleLLMAgent.gaia_tools
      "MERCEDES SOSA: HOW MANY STUDIO ALBUMS BETWEEN 2000 AND 2009?" = some "3" ∧
    SimpleLLMAgent.gaia_tools
      "mercedes sosa: how many studio albums between 2000 and 2009?" = some "3" := by
  refine ⟨fun s => ?_, by decide, by decide⟩
  unfold SimpleLLMAgent.gaia_tools
  rw [lowerStr_idem]

/-- Claim C2: the tool table is the ordered rule list `gaiaRules` evaluated
first-match on the lowercased text: whenever two rules both hold, the
earlier-declared one supplies the answer, and when no rule holds the
result is `none`. -/
theorem rule_order_first_wins :
    (∀ p, SimpleLLMAgent.gaia_tools p = firstMatch gaiaRules (lowerStr p)) ∧
    (∀ (p : String) (i j : Nat) (hi : i < gaiaRules.length) (hj : j < gaiaRules.length),
      i < j →
      (gaiaRules.get ⟨i, hi⟩).pred (lowerStr p) = true →
      (gaiaRules.get ⟨j, hj⟩).pred (lowerStr p) = true →
      (∀ k (hk : k < i), (gaiaRules.get ⟨k, Nat.lt_trans hk hi⟩).pred (lowerStr p) = false) →
      SimpleLLMAgent.gaia_tools p = some (gaiaRules.get ⟨i, hi⟩).answer) ∧
    (∀ p, (∀ r ∈ gaiaRules, r.pred (lowerStr p) = false) →
      SimpleLLMAgent.gaia_tools p = none) := by
  refine ⟨fun p => toolChecks_eq_firstMatch (lowerStr p), ?_, ?_⟩
  · intro p i j hi hj _ hmi _ hfirst
    exact (toolChecks_eq_firstMatch (lowerStr p)).trans
      (firstMatch_eq_of_first gaiaRules (lowerStr p) i hi hmi hfirst)
  · intro p h
    exact (toolChecks_eq_firstMatch (lowerStr p)).trans
      (firstMatch_eq_none gaiaRules (lowerStr p) h)

/-- Witness for C2: a question matching both the Mercedes Sosa rule
(declared first) and the birds-video rule gets the answer of the first
rule, and an unmatched question gets `none`. -/
theorem rule_order_first_wins_w :
    SimpleLLMAgent.gaia_tools
      "mercedes sosa studio albums 2000 and 2009 l1vxcyzayym bird species" = some "3" ∧
    SimpleLLMAgent.gaia_tools "hi there" = none :=
  ⟨(rule_order_first_wins.2.1
      "mercedes sosa studio albums 2000 and 2009 l1vxcyzayym bird species"
      0 1 (by decide) (by decide) (by decide) (by decide) (by decide)
      (fun k hk => absurd hk (Nat.not_lt_zero k))).trans (by decide),
   rule_order_first_wins.2.2 "hi there" (by decide)⟩

theorem leadsWith_extend {n l : List Char} (h : leadsWith n l = true) (r : List Char) :
    leadsWith n (l ++ r) = true := by
  obtain ⟨t, rfl⟩ := leadsWith_iff_exists.mp h
  rw [List.append_assoc]
  exact leadsWith_append_self n (t ++ r)

theorem hasSeq_of_leadsWith {n h : List Char} (hl : leadsWith n h = true) :
    hasSeq n h = true := by
  cases h with
  | nil =>
    cases n with
    | nil => rfl
    | cons a as => exact absurd hl (by simp [leadsWith])
  | cons b bs => simp [hasSeq, hl]

theorem strStarts_self_append (p r : String) : strStarts p (p ++ r) = true := by
  rw [strStarts, String.data_append]
  exact leadsWith_append_self p.data r.data

theorem strStarts_of_eq_append {p s r : String} (h : s = p ++ r) :
    strStarts p s = true := by
  rw [h]
  exact strStarts_self_append p r

theorem strStarts_false_of_early_ne (p l r : String) (n : Nat)
    (hp : n ≤ p.data.length) (hl : n ≤ l.data.length)
    (hne : p.data.take n ≠ l.data.take n) :
    strStarts p (l ++ r) = false := by
  apply leadsWith_eq_false_of_take_ne n hp
  rw [String.data_append, List.take_append_of_le_length hl]
  exact hne

theorem strStarts_false_of_take_ne (p s : String) (n : Nat)
    (hp : n ≤ p.data.length) (hne : p.data.take n ≠ s.data.take n) :
    strStarts p s = false :=
  leadsWith_eq_false_of_take_ne n hp hne

theorem append_beq_false_of_early_ne (l r t : String) (n : Nat)
    (hl : n ≤ l.data.length) (hne : l.data.take n ≠ t.data.take n) :
    ((l ++ r) == t) = false := by
  rw [beq_eq_false_iff_ne]
  intro h
  apply hne
  have hdata : l.data ++ r.data = t.data := by
    rw [← String.data_append, h]
  rw [← hdata, List.take_append_of_le_length hl]

theorem strIn_of_eq {n s : String} (pre suf : String) (h : s = pre ++ n ++ suf) :
    strIn n s = true := by
  rw [h]
  exact strIn_middle pre n suf

theorem strIn_of_strStarts {n s : String} (h : strStarts n s = true) :
    strIn n s = true :=
  hasSeq_of_leadsWith h

theorem classify_httpError (u : String) (code : Nat) (body : JsonDetail) (text : String) :
    classifyStatus (submitStatus u (SubmitResult.httpError code body text)) = 0 := by
  cases body with
  | parsed d =>
    have h : strStarts "Submission Failed: Server responded with status "
        (submitStatus u (SubmitResult.httpError code (JsonDetail.parsed d) text)) = true :=
      strStarts_of_eq_append
        (r := toString code ++ ("." ++ (" Detail: " ++ d.getD text)))
        (by apply String.ext; simp [submitStatus, String.data_append, List.append_assoc])
    simp [classifyStatus, h]
  | unparseable =>
    have h : strStarts "Submission Failed: Server responded with status "
        (submitStatus u (SubmitResult.httpError code JsonDetail.unparseable text)) = true :=
      strStarts_of_eq_append
        (r := toString code ++ ("." ++ (" Response: " ++ pyTake text 500)))
        (by apply String.ext; simp [submitStatus, String.data_append, List.append_assoc])
    simp [classifyStatus, h]

theorem classify_timeout (u : String) :
    classifyStatus (submitStatus u SubmitResult.timeout) = 1 := by
  show classifyStatus "Submission Failed: The request timed out." = 1
  decide

theorem classify_requestError (u m : String) :
    classifyStatus (submitStatus u (SubmitResult.requestError m)) = 2 := by
  have h0 : strStarts "Submission Failed: Server responded with status "
      ("Submission Failed: Network error - " ++ m) = false :=
    strStarts_false_of_early_ne _ _ _ 20 (by decide) (by decide) (by decide)
  have h1 : (("Submission Failed: Network error - " ++ m) ==
      "Submission Failed: The request timed out.") = false :=
    append_beq_false_of_early_ne _ _ _ 20 (by decide) (by decide)
  have h2 : strStarts "Submission Failed: Network error - "
      ("Submission Failed: Network error - " ++ m) = true :=
    strStarts_self_append _ _
  simp [classifyStatus, submitStatus, h0, h1, h2]

theorem classify_unexpected (u m : String) :
    classifyStatus (submitStatus u (SubmitResult.unexpected m)) = 3 := by
  have h0 : strStarts "Submission Failed: Server responded with status "
      ("An unexpected error occurred during submission: " ++ m) = false :=
    strStarts_false_of_early_ne _ _ _ 1 (by decide) (by decide) (by decide)
  have h1 : (("An unexpected error occurred during submission: " ++ m) ==
      "Submission Failed: The request timed out.") = false :=
    append_beq_false_of_early_ne _ _ _ 1 (by decide) (by decide)
  have h2 : strStarts "Submission Failed: Network error - "
      ("An unexpected error occurred during submission: " ++ m) = false :=
    strStarts_false_of_early_ne _ _ _ 1 (by decide) (by decide) (by decide)
  have h3 : strStarts "An unexpected error occurred during submission: "
      ("An unexpected error occurred during submission: " ++ m) = true :=
    strStarts_self_append _ _
  simp [classifyStatus, submitStatus, h0, h1, h2, h3]

/-- Claim C5: every submission failure is rendered as one of four status
strings: an HTTP error status containing "Submission Failed", the
numeric status code, and the structured detail field when one was
parsed, else the raw response body truncated to 500 characters; a
timeout status; a network error status; and an unexpected error status
— the four shapes classified apart by `classifyStatus`, hence pairwise
distinct — and with the fetch successful the runner always returns a
status string together with the result log. -/
theorem submit_failure_classified :
    (∀ (u : String) (code : Nat) (body : JsonDetail) (text : String),
      strIn "Submission Failed"
        (submitStatus u (SubmitResult.httpError code body text)) = true ∧
      strIn (toString code)
        (submitStatus u (SubmitResult.httpError code body text)) = true) ∧
    (∀ (u : String) (code : Nat) (d text : String),
      strIn d (submitStatus u
        (SubmitResult.httpError code (JsonDetail.parsed (some d)) text)) = true) ∧
    (∀ (u : String) (code : Nat) (text : String),
      strIn (pyTake text 500) (submitStatus u
        (SubmitResult.httpError code (JsonDetail.parsed none) text)) = true) ∧
    (∀ (u : String) (code : Nat) (text : String),
      strIn (pyTake text 500) (submitStatus u
        (SubmitResult.httpError code JsonDetail.unparseable text)) = true) ∧
    (∀ (u : String) (code : Nat) (body : JsonDetail) (text : String),
      classifyStatus (submitStatus u (SubmitResult.httpError code body text)) = 0) ∧
    (∀ u : String, classifyStatus (submitStatus u SubmitResult.timeout) = 1) ∧
    (∀ u m : String, classifyStatus (submitStatus u (SubmitResult.requestError m)) = 2) ∧
    (∀ u m : String, classifyStatus (submitStatus u (SubmitResult.unexpected m)) = 3) ∧
    (∀ (u : String) (items : List QItem)
       (agent : String → List (String × String) → Except String String)
       (sr : SubmitResult),
      (run_and_submit_all (some u) (Except.ok items) agent sr).2 =
        some (processTasks agent items).2) := by
  refine ⟨?_, ?_, ?_, ?_, classify_httpError, classify_timeout,
    classify_requestError, classify_unexpected, ?_⟩
  · intro u code body text
    constructor
    · apply strIn_of_strStarts
      cases body <;>
      · simp only [strStarts, submitStatus, String.data_append, List.append_assoc]
        exact leadsWith_extend (by decide) _
    · cases body with
      | parsed d =>
        exact strIn_of_eq "Submission Failed: Server responded with status "
          ("." ++ (" Detail: " ++ d.getD text))
          (by apply String.ext; simp [submitStatus, String.data_append, List.append_assoc])
      | unparseable =>
        exact strIn_of_eq "Submission Failed: Server responded with status "
          ("." ++ (" Response: " ++ pyTake text 500))
          (by apply String.ext; simp [submitStatus, String.data_append, List.append_assoc])
  · intro u code d text
    exact strIn_of_eq
      ("Submission Failed: Server responded with status " ++ toString code ++ "." ++
        " Detail: ") ""
      (by apply String.ext; simp [submitStatus, String.data_append, List.append_assoc])
  · intro u code text
    exact strIn_of_eq
      ("Submission Failed: Server responded with status " ++ toString code ++ "." ++
        " Detail: ") ⟨text.data.drop 500⟩
      (by
        apply String.ext
        simp [submitStatus, pyTake, String.data_append, List.append_assoc])
  · intro u code text
    exact strIn_of_eq
      ("Submission Failed: Server responded with status " ++ toString code ++ "." ++
        " Response: ") ""
      (by apply String.ext; simp [submitStatus, String.data_append, List.append_assoc])
  · intro u items agent sr
    by_cases hp : (processTasks agent items).1.isEmpty
    · simp [run_and_submit_all, hp]
    · simp [run_and_submit_all, hp]

/-- Claim C4: when the decoded questions body is not a non-empty list,
`fetch_questions` raises (`Except.error`), and the runner surfaces that
as a status message and aborts before dispatch: the returned log is
`none` and the result does not depend on the agent or on the submit
outcome (no agent call, no submission). -/
theorem fetch_invalid_aborts (body : FetchBody) (h : isNonEmptyList body = false) :
    fetch_questions body = Except.error fetchFailMsg ∧
    (∀ (u : String) (agent : String → List (String × String) → Except String String)
       (sr : SubmitResult),
      run_and_submit_all (some u) (fetch_questions body) agent sr =
        ("Error while fetching questions: " ++ fetchFailMsg, none)) ∧
    (∀ (u : String) (a₁ a₂ : String → List (String × String) → Except String String)
       (s₁ s₂ : SubmitResult),
      run_and_submit_all (some u) (fetch_questions body) a₁ s₁ =
        run_and_submit_all (some u) (fetch_questions body) a₂ s₂) := by
  have hf : fetch_questions body = Except.error fetchFailMsg := by
    cases body with
    | list items =>
      have hlen : (items.length == 0) = true := by simpa [isNonEmptyList] using h
      simp [fetch_questions, hlen]
    | notList => rfl
  refine ⟨hf, fun u agent sr => ?_, fun u a₁ a₂ s₁ s₂ => ?_⟩
  · rw [hf]; rfl
  · rw [hf]; rfl

/-- Witness for C4: a non-list body makes the runner abort with the
fetch error status and no result log. -/
theorem fetch_invalid_aborts_w :
    fetch_questions FetchBody.notList = Except.error fetchFailMsg ∧
    run_and_submit_all (some "user") (fetch_questions FetchBody.notList)
      (fun _ _ => Except.ok "a") SubmitResult.timeout =
      ("Error while fetching questions: " ++ fetchFailMsg, none) :=
  ⟨(fetch_invalid_aborts FetchBody.notList (by decide)).1,
   (fetch_invalid_aborts FetchBody.notList (by decide)).2.1 "user"
     (fun _ _ => Except.ok "a") SubmitResult.timeout⟩

/-- Claim C6: a fetched item with a missing or empty id, or with no question,
is dropped before dispatch without failing the run: removing it from
anywhere in the list leaves the processing result unchanged, and in
general processing a list equals processing its valid sublist. -/
theorem malformed_items_dropped
    (agent : String → List (String × String) → Except String String)
    (pre post : List QItem) (item : QItem) (h : isValidItem item = false) :
    processTasks agent (pre ++ item :: post) = processTasks agent (pre ++ post) ∧
    (∀ l : List QItem, processTasks agent l = processTasks agent (l.filter isValidItem)) :=
  ⟨processTasks_middle_invalid agent pre post item h, processTasks_filter agent⟩

/-- Witness for C6: the item with a missing task id contributes no
entry while the valid item before it is still processed. -/
theorem malformed_items_dropped_w :
    processTasks (fun q _ => Except.ok q)
      ([(⟨some "1", some "Q1", []⟩ : QItem)] ++ (⟨none, some "Q2", []⟩ : QItem) :: []) =
      processTasks (fun q _ => Except.ok q) ([(⟨some "1", some "Q1", []⟩ : QItem)] ++ []) :=
  (malformed_items_dropped (fun q _ => Except.ok q)
    [⟨some "1", some "Q1", []⟩] [] ⟨none, some "Q2", []⟩ (by decide)).1

/-- Claim C7: when the submission payload comes out empty the runner never
consults the submit outcome, reports that no answers were submitted,
and still returns the full result log, whose length is the number of
valid fetched tasks. -/
theorem empty_payload_short_circuit (u : String) (items : List QItem)
    (agent : String → List (String × String) → Except String String)
    (s₁ s₂ : SubmitResult)
    (h : (processTasks agent items).1 = []) :
    run_and_submit_all (some u) (Except.ok items) agent s₁ =
      ("Agent did not produce any answers to submit.",
       some (processTasks agent items).2) ∧
    run_and_submit_all (some u) (Except.ok items) agent s₁ =
      run_and_submit_all (some u) (Except.ok items) agent s₂ ∧
    (processTasks agent items).2.length = (items.filter isValidItem).length := by
  have hp : (processTasks agent items).1.isEmpty = true := by simp [h]
  refine ⟨?_, ?_, processTasks_log_length agent items⟩
  · simp [run_and_submit_all, hp]
  · simp [run_and_submit_all, hp]

/-- Witness for C7: a single valid task whose agent call raises gives an
empty payload, the no-answers status, and the one-entry error log. -/
theorem empty_payload_short_circuit_w :
    run_and_submit_all (some "user") (Except.ok [⟨some "1", some "Q", []⟩])
      (fun _ _ => Except.error "boom") SubmitResult.timeout =
      ("Agent did not produce any answers to submit.",
       some [⟨"1", "Q", "AGENT ERROR: boom"⟩]) :=
  (empty_payload_short_circuit "user" [⟨some "1", some "Q", []⟩]
    (fun _ _ => Except.error "boom") SubmitResult.timeout
    (SubmitResult.requestError "x") rfl).1

/-- Counterexample to C3 as stated: a fetched list containing only a
malformed item (missing task id) yields payload and log of equal length
even though a fetched task was malformed, because a dropped item
contributes to neither side; the third conjunct records that no agent
call raised. -/
theorem payload_log_equal_with_malformed :
    ((processTasks (fun _ _ => Except.ok "A") [⟨none, some "Q2", []⟩]).1.length =
      (processTasks (fun _ _ => Except.ok "A") [⟨none, some "Q2", []⟩]).2.length) ∧
    ([(⟨none, some "Q2", []⟩ : QItem)].all isValidItem) = false ∧
    ([(⟨none, some "Q2", []⟩ : QItem)].countP
      (agentErrs (fun _ _ => Except.ok "A"))) = 0 :=
  ⟨rfl, rfl, rfl⟩

/-- Claim C3 (amended): the submission payload is never longer than the result
log; the log length exceeds the payload length by exactly the number of
valid tasks whose agent call raised, so the lengths are equal iff no
task raised `AgentExecutionError` (malformed tasks are dropped entirely
and affect neither side); every per-task exception produces an
`AGENT ERROR: <message>` log entry excluded from the payload. -/
theorem payload_log_size_invariant
    (agent : String → List (String × String) → Except String String)
    (items : List QItem) :
    (processTasks agent items).1.length ≤ (processTasks agent items).2.length ∧
    (processTasks agent items).2.length =
      (processTasks agent items).1.length + items.countP (agentErrs agent) ∧
    ((processTasks agent items).1.length = (processTasks agent items).2.length ↔
      items.countP (agentErrs agent) = 0) ∧
    (∀ (tid q : String) (md : List (String × String)) (e : String),
      (tid == "") = false → agent q md = Except.error e →
      processTasks agent [⟨some tid, some q, md⟩] =
        ([], [⟨tid, q, "AGENT ERROR: " ++ e⟩])) := by
  have hsplit := processTasks_length_split agent items
  refine ⟨by omega, hsplit, by omega, ?_⟩
  intro tid q md e htid hag
  simp [processTasks, htid, hag]

/-- Witness for C3 (amended): one valid task whose agent call raises
produces an empty payload and a single `AGENT ERROR:` log entry. -/
theorem payload_log_size_invariant_w :
    processTasks (fun _ _ => Except.error "boom") [⟨some "1", some "Q", []⟩] =
      ([], [⟨"1", "Q", "AGENT ERROR: boom"⟩]) :=
  (payload_log_size_invariant (fun _ _ => Except.error "boom")
    [⟨some "1", some "Q", []⟩]).2.2.2 "1" "Q" [] "boom" (by decide) rfl

/-- Claim C10: the validity checks are asymmetric: an item with a present but
empty question is valid and dispatched (its log entry records the agent
outcome on the empty question), while an item with an empty task id is
dropped exactly like one with a missing task id. -/
theorem empty_question_dispatched_empty_id_dropped
    (agent : String → List (String × String) → Except String String) :
    (∀ (tid : String) (md : List (String × String)), (tid == "") = false →
      isValidItem ⟨some tid, some "", md⟩ = true ∧
      (processTasks agent [⟨some tid, some "", md⟩]).2 =
        [⟨tid, "", answerOf (agent "" md)⟩]) ∧
    (∀ (q : Option String) (md : List (String × String)),
      isValidItem ⟨some "", q, md⟩ = false ∧
      processTasks agent [⟨some "", q, md⟩] = ([], []) ∧
      processTasks agent [⟨some "", q, md⟩] = processTasks agent [⟨none, q, md⟩]) := by
  constructor
  · intro tid md htid
    constructor
    · simp [isValidItem, htid]
    · cases hag : agent "" md <;> simp [processTasks, htid, hag, answerOf]
  · intro q md
    refine ⟨?_, ?_, ?_⟩
    · cases q <;> simp [isValidItem]
    · cases q <;> simp [processTasks]
    · cases q <;> simp [processTasks]

/-- Witness for C10: an empty question with task id "7" is dispatched
and logged; an empty task id is dropped. -/
theorem empty_question_dispatched_empty_id_dropped_w :
    isValidItem ⟨some "7", some "", []⟩ = true ∧
    (processTasks (fun _ _ => Except.ok "ans") [⟨some "7", some "", []⟩]).2 =
      [⟨"7", "", "ans"⟩] ∧
    processTasks (fun _ _ => Except.ok "ans") [⟨some "", some "Q", []⟩] = ([], []) :=
  ⟨((empty_question_dispatched_empty_id_dropped (fun _ _ => Except.ok "ans")).1
      "7" [] (by decide)).1,
   ((empty_question_dispatched_empty_id_dropped (fun _ _ => Except.ok "ans")).1
      "7" [] (by decide)).2,
   ((empty_question_dispatched_empty_id_dropped (fun _ _ => Except.ok "ans")).2
      (some "Q") []).2.1⟩
